import Mathlib

/-!
Shallow embedding of the XLR bot core (src/main.rs): the thread-create handler,
the forum classification lookup, the event loop with its shutdown race, and the
shutdown coordinator. Remote effects (Discord HTTP calls) are modelled by an
environment of pure functions carried in the client handle, and every operation
additionally returns the list of API calls it performed, so that frame claims
(zero calls, exactly one reaction) are statable.
-/

namespace XLR

/-- Channel types of the remote platform (twilight ChannelType). Only GuildForum is
ever distinguished by this program (main.rs line 110). -/
inductive ChannelType
  | GuildText
  | Private
  | GuildVoice
  | Group
  | GuildCategory
  | GuildAnnouncement
  | AnnouncementThread
  | PublicThread
  | PrivateThread
  | GuildStageVoice
  | GuildDirectory
  | GuildForum
  | GuildMedia
deriving DecidableEq, Repr

/-- The payload of a thread-create gateway event: the thread id and the optional
parent channel id. Ids are modelled as the underlying numeric value (twilight Id
is a newtype over a nonzero u64; the cast from channel-id to message-id at
main.rs line 98 preserves the number, so both are plain Nat here). -/
structure ThreadCreate where
  id : Nat
  parent_id : Option Nat
deriving DecidableEq, Repr

/-- Gateway events. The program matches only on Event::ThreadCreate (main.rs line 71);
all other variants are collapsed into Other, tagged so that distinct non-thread
events exist in the model. -/
inductive Event
  | ThreadCreate (thread : XLR.ThreadCreate)
  | Other (tag : Nat)
deriving DecidableEq, Repr

/-- Opaque twilight-http transport error, distinguishable by a code. -/
structure HttpError where
  code : Nat
deriving DecidableEq, Repr

/-- Opaque twilight-http body deserialization error. -/
structure DeserializeBodyError where
  code : Nat
deriving DecidableEq, Repr

/-- The error enum of main.rs lines 113-121. DiscordApi wraps twilight_http::Error,
BodyDeserialize wraps DeserializeBodyError, NoThreadParentId is the missing-parent
case. -/
inductive Error
  | DiscordApi (e : HttpError)
  | BodyDeserialize (e : DeserializeBodyError)
  | NoThreadParentId
deriving DecidableEq, Repr

/-- The error kinds used by the specification: RemoteApi covers both wrapped
twilight-http failure modes, MissingParent is NoThreadParentId. -/
def Error.isRemoteApi : Error → Bool
  | Error.DiscordApi _ => true
  | Error.BodyDeserialize _ => true
  | Error.NoThreadParentId => false

/-- MissingParent error kind of the specification. -/
def Error.isMissingParent : Error → Bool
  | Error.NoThreadParentId => true
  | _ => false

/-- Reaction payload (twilight RequestReactionType); the program only builds the
Unicode variant. -/
inductive RequestReactionType
  | Unicode (name : String)
deriving DecidableEq, Repr

/-- A call made to the Remote API Client: channel-metadata fetch (main.rs line 109)
or reaction add (main.rs lines 94-101). -/
inductive ApiCall
  | channel (id : Nat)
  | create_reaction (channel_id : Nat) (message_id : Nat) (emoji : RequestReactionType)
deriving DecidableEq, Repr

/-- Whether a call is a reaction-add call. -/
def ApiCall.isReaction : ApiCall → Bool
  | ApiCall.create_reaction _ _ _ => true
  | _ => false

/-- The Remote API Client, as the environment of outcomes of its two operations.
channel models client.channel(id).await (outer Except, twilight-http error)
followed by .model().await (inner Except, deserialize error) yielding the channel
kind; create_reaction models client.create_reaction(..).await. -/
structure DiscordClient where
  channel : Nat → Except HttpError (Except DeserializeBodyError ChannelType)
  create_reaction : Nat → Nat → RequestReactionType → Except HttpError Unit

/-- The application state of main.rs lines 123-126: the client handle and the
forum classification cache (AHashMap modelled as an association list). -/
structure InnerAppState where
  client : DiscordClient
  forums : List (Nat × Bool)

/-- The fixed reaction payload of main.rs line 99. -/
def upArrow : RequestReactionType := RequestReactionType.Unicode "⬆️"

/-- is_forum_post of main.rs lines 105-111. Returns the classification result,
the list of API calls performed, and the application state after the call (the
source only ever reads the cache, so the returned state is the input state). -/
def is_forum_post (state : InnerAppState) (parent : Nat) :
    Except Error Bool × List ApiCall × InnerAppState :=
  match state.forums.lookup parent with
  | some kind => (Except.ok kind, [], state)
  | none =>
    match state.client.channel parent with
    | Except.error e => (Except.error (Error.DiscordApi e), [ApiCall.channel parent], state)
    | Except.ok body =>
      match body with
      | Except.error e =>
        (Except.error (Error.BodyDeserialize e), [ApiCall.channel parent], state)
      | Except.ok channel_kind =>
        (Except.ok (match channel_kind with
          | ChannelType.GuildForum => true
          | _ => false), [ApiCall.channel parent], state)

/-- on_thread_create of main.rs lines 84-103: validate the parent id, classify it,
and if it is a forum add the fixed reaction to the thread's own message (message
id is the thread id cast, i.e. the same number). -/
def on_thread_create (state : InnerAppState) (thread : XLR.ThreadCreate) :
    Except Error Unit × List ApiCall × InnerAppState :=
  match thread.parent_id with
  | none => (Except.error Error.NoThreadParentId, [], state)
  | some parent =>
    match is_forum_post state parent with
    | (Except.error e, calls, state2) => (Except.error e, calls, state2)
    | (Except.ok false, calls, state2) => (Except.ok (), calls, state2)
    | (Except.ok true, calls, state2) =>
      match state2.client.create_reaction thread.id thread.id upArrow with
      | Except.error e =>
        (Except.error (Error.DiscordApi e),
          calls ++ [ApiCall.create_reaction thread.id thread.id upArrow], state2)
      | Except.ok _ =>
        (Except.ok (),
          calls ++ [ApiCall.create_reaction thread.id thread.id upArrow], state2)

/-- The outcome of one top-of-iteration select (main.rs lines 56-59): either the
shutdown receiver completed (cancelled), or the shard produced a transport error
with its fatality flag, or it produced an event. The loop is driven by a finite
list of such outcomes; outcomes after the loop breaks are the still-queued,
never-consumed inputs. -/
inductive LoopInput
  | cancelled
  | gatewayErr (is_fatal : Bool)
  | event (e : Event)
deriving DecidableEq, Repr

/-- Observable actions of the event loop, in order: API calls made by the handler,
the error log of main.rs line 64 (source errors), the error log of main.rs line 80
(handler errors, via wrap_result), a hypothetical log of a close failure (the
specification predicts one; the source has none), and the close handshake of
main.rs line 75. -/
inductive LoopAction
  | call (c : ApiCall)
  | logSourceError (is_fatal : Bool)
  | logHandlerError (e : Error)
  | logCloseError
  | close
deriving DecidableEq, Repr

/-- Whether an action is a log entry. -/
def LoopAction.isLog : LoopAction → Bool
  | LoopAction.logSourceError _ => true
  | LoopAction.logHandlerError _ => true
  | LoopAction.logCloseError => true
  | _ => false

/-- wrap_result of main.rs lines 78-82: log the error, if any, and discard it. -/
def wrap_result {T : Type} : Except Error T → List LoopAction
  | Except.error e => [LoopAction.logHandlerError e]
  | Except.ok _ => []

/-- Why the loop stopped consuming inputs: break on the shutdown notification
(main.rs line 58), break on a fatal transport error (main.rs line 66), or the
input list was exhausted with the loop still running and awaiting (starved). -/
inductive ExitReason
  | cancelled
  | fatalTransport
  | starved
deriving DecidableEq, Repr

/-- Result of running the event loop: the emitted actions, the final application
state, why consumption stopped, and the inputs left unconsumed. -/
structure LoopResult where
  actions : List LoopAction
  state : InnerAppState
  exit : ExitReason
  remaining : List LoopInput

/-- The loop body of event_loop (main.rs lines 54-74), without the trailing close. -/
def event_loop_go (state : InnerAppState) : List LoopInput → LoopResult
  | [] => ⟨[], state, ExitReason.starved, []⟩
  | LoopInput.cancelled :: rest => ⟨[], state, ExitReason.cancelled, rest⟩
  | LoopInput.gatewayErr is_fatal :: rest =>
    if is_fatal then
      ⟨[LoopAction.logSourceError true], state, ExitReason.fatalTransport, rest⟩
    else
      let r := event_loop_go state rest
      ⟨LoopAction.logSourceError false :: r.actions, r.state, r.exit, r.remaining⟩
  | LoopInput.event (Event.ThreadCreate thread) :: rest =>
    match on_thread_create state thread with
    | (res, calls, state2) =>
      let r := event_loop_go state2 rest
      ⟨calls.map LoopAction.call ++ wrap_result res ++ r.actions, r.state, r.exit, r.remaining⟩
  | LoopInput.event (Event.Other _) :: rest => event_loop_go state rest

/-- event_loop of main.rs lines 53-76: run the loop body; when the loop has
broken out (not starved), issue the close handshake of line 75. close_ok is the
outcome of that close call; the source discards it (let _ = ...), so it affects
nothing. -/
def event_loop (state : InnerAppState) (close_ok : Bool) (inputs : List LoopInput) :
    LoopResult :=
  let r := event_loop_go state inputs
  match r.exit with
  | ExitReason.starved => r
  | _ => ⟨r.actions ++ [LoopAction.close], r.state, r.exit, r.remaining⟩

/-- An input on which the loop breaks: the cancellation notification or a fatal
transport error. -/
def LoopInput.stops : LoopInput → Bool
  | LoopInput.cancelled => true
  | LoopInput.gatewayErr is_fatal => is_fatal
  | LoopInput.event _ => false

/-- The termination signals the shutdown coordinator selects over
(main.rs lines 38-44): SIGTERM and ctrl-c. -/
inductive Signal
  | terminate
  | ctrl_c
deriving DecidableEq, Repr

/-- Outcome of the shutdown coordinator task. -/
inductive CoordinatorOutcome
  | notified
  | processTerminated
deriving DecidableEq, Repr

/-- The shutdown coordinator of main.rs lines 37-49: whichever of the two signals
arrives first, send one cancellation notification on the one-shot channel; the
send result goes through expect, whose failure panics. Modelled from the spec:
the panic-propagation policy (Cargo profile / runtime configuration) is not under
src, and the specification states that an undeliverable notification terminates
the process, so the expect-failure path is modelled as processTerminated. The
first component counts the send calls performed. -/
def shutdown_coordinator (first_signal : Signal) (receiver_alive : Bool) :
    Nat × CoordinatorOutcome :=
  match first_signal with
  | Signal.terminate =>
    (1, if receiver_alive then CoordinatorOutcome.notified
        else CoordinatorOutcome.processTerminated)
  | Signal.ctrl_c =>
    (1, if receiver_alive then CoordinatorOutcome.notified
        else CoordinatorOutcome.processTerminated)

/-- The cache as constructed at startup (main.rs line 31): empty (with_capacity
only reserves space). -/
def initial_forums : List (Nat × Bool) := []

/-- The application state as constructed at startup (main.rs line 32). -/
def initial_state (client : DiscordClient) : InnerAppState :=
  { client := client, forums := initial_forums }

/-- A concrete client for witnesses: channel 7 is a forum, every other channel is
a text channel, reactions always succeed. -/
def testClient : DiscordClient :=
  { channel := fun id =>
      if id = 7 then Except.ok (Except.ok ChannelType.GuildForum)
      else Except.ok (Except.ok ChannelType.GuildText),
    create_reaction := fun _ _ _ => Except.ok () }

/-- The startup state over the test client: empty cache. -/
def state0 : InnerAppState := { client := testClient, forums := [] }

/-- A state whose cache already classifies channel 7 as a forum. -/
def state1 : InnerAppState := { client := testClient, forums := [(7, true)] }

/-- is_forum_post never mutates the application state: the source only ever takes
the read side of the lock (main.rs line 106) and never inserts. -/
theorem is_forum_post_state (s : InnerAppState) (p : Nat) :
    (is_forum_post s p).2.2 = s := by
  unfold is_forum_post
  split
  · rfl
  · split
    · rfl
    · split
      · rfl
      · rfl

/-- is_forum_post only ever performs the channel-metadata fetch, never a
reaction-add. -/
theorem is_forum_post_no_reaction (s : InnerAppState) (p : Nat) :
    (is_forum_post s p).2.1.filter ApiCall.isReaction = [] := by
  unfold is_forum_post
  split
  · rfl
  · split
    · simp [ApiCall.isReaction]
    · split
      · simp [ApiCall.isReaction]
      · simp [ApiCall.isReaction]

/-- On a cache miss, is_forum_post performs exactly the channel-metadata fetch,
whatever its outcome. -/
theorem is_forum_post_miss_calls (s : InnerAppState) (p : Nat)
    (hmiss : s.forums.lookup p = none) :
    (is_forum_post s p).2.1 = [ApiCall.channel p] := by
  unfold is_forum_post
  rw [hmiss]
  rcases s.client.channel p with e | body
  · rfl
  · rcases body with e2 | k
    · rfl
    · rfl

/-- on_thread_create never mutates the application state. -/
theorem on_thread_create_state (s : InnerAppState) (t : XLR.ThreadCreate) :
    (on_thread_create s t).2.2 = s := by
  unfold on_thread_create
  split
  · rfl
  · rename_i parent _
    have hs := is_forum_post_state s parent
    split
    · rename_i e calls state2 heq
      rw [heq] at hs
      exact hs
    · rename_i calls state2 heq
      rw [heq] at hs
      exact hs
    · rename_i calls state2 heq
      rw [heq] at hs
      split
      · exact hs
      · exact hs

/-- The loop body never mutates the application state. -/
theorem event_loop_go_state (s : InnerAppState) (inputs : List LoopInput) :
    (event_loop_go s inputs).state = s := by
  induction inputs generalizing s with
  | nil => rfl
  | cons i rest ih =>
    cases i with
    | cancelled => rfl
    | gatewayErr f =>
      cases f with
      | false => simpa [event_loop_go] using ih s
      | true => rfl
    | event e =>
      cases e with
      | ThreadCreate t =>
        rcases hoc : on_thread_create s t with ⟨res, calls, s2⟩
        have h1 : s2 = s := by
          have h2 := on_thread_create_state s t
          rw [hoc] at h2
          exact h2
        simp [event_loop_go, hoc, h1, ih s]
      | Other tag => simpa [event_loop_go] using ih s

/-- event_loop never mutates the application state. -/
theorem event_loop_state (s : InnerAppState) (close_ok : Bool) (inputs : List LoopInput) :
    (event_loop s close_ok inputs).state = s := by
  have h := event_loop_go_state s inputs
  rcases hgo : event_loop_go s inputs with ⟨acts, st, ex, rem⟩
  rw [hgo] at h
  simp only [event_loop, hgo]
  cases ex
  · exact h
  · exact h
  · exact h

/-- The loop body consumes its whole input exactly when no input is a stop input
(cancellation or fatal transport error). -/
theorem event_loop_go_starved_iff (s : InnerAppState) (inputs : List LoopInput) :
    (event_loop_go s inputs).exit = ExitReason.starved ↔
      ∀ i ∈ inputs, LoopInput.stops i = false := by
  induction inputs generalizing s with
  | nil => simp [event_loop_go]
  | cons i rest ih =>
    cases i with
    | cancelled => simp [event_loop_go, LoopInput.stops]
    | gatewayErr f =>
      cases f with
      | false => simpa [event_loop_go, LoopInput.stops] using ih s
      | true => simp [event_loop_go, LoopInput.stops]
    | event e =>
      cases e with
      | ThreadCreate t =>
        rcases hoc : on_thread_create s t with ⟨res, calls, s2⟩
        simpa [event_loop_go, hoc, LoopInput.stops] using ih s2
      | Other tag => simpa [event_loop_go, LoopInput.stops] using ih s

/-- When the loop body is starved (input exhausted without a stop), nothing was
left unconsumed. -/
theorem event_loop_go_starved_remaining (s : InnerAppState) (inputs : List LoopInput)
    (h : (event_loop_go s inputs).exit = ExitReason.starved) :
    (event_loop_go s inputs).remaining = [] := by
  induction inputs generalizing s with
  | nil => rfl
  | cons i rest ih =>
    cases i with
    | cancelled => simp [event_loop_go] at h
    | gatewayErr f =>
      cases f with
      | false =>
        simp only [event_loop_go] at h ⊢
        exact ih s h
      | true => simp [event_loop_go] at h
    | event e =>
      cases e with
      | ThreadCreate t =>
        rcases hoc : on_thread_create s t with ⟨res, calls, s2⟩
        simp only [event_loop_go, hoc] at h ⊢
        exact ih s2 h
      | Other tag =>
        simp only [event_loop_go] at h ⊢
        exact ih s h

/-- The loop body itself never emits the close handshake nor a close-failure log;
those could only come from the epilogue after the loop. -/
theorem event_loop_go_no_close (s : InnerAppState) (inputs : List LoopInput) :
    LoopAction.close ∉ (event_loop_go s inputs).actions ∧
    LoopAction.logCloseError ∉ (event_loop_go s inputs).actions := by
  induction inputs generalizing s with
  | nil => simp [event_loop_go]
  | cons i rest ih =>
    cases i with
    | cancelled => simp [event_loop_go]
    | gatewayErr f =>
      cases f with
      | false => simpa [event_loop_go] using ih s
      | true => simp [event_loop_go]
    | event e =>
      cases e with
      | ThreadCreate t =>
        rcases hoc : on_thread_create s t with ⟨res, calls, s2⟩
        have h2 := ih s2
        cases res with
        | error err => simp [event_loop_go, hoc, wrap_result, h2.1, h2.2]
        | ok v => simp [event_loop_go, hoc, wrap_result, h2.1, h2.2]
      | Other tag => simpa [event_loop_go] using ih s

/-- A thread whose parent is the forum channel 7. -/
def thread0 : XLR.ThreadCreate := { id := 5, parent_id := some 7 }

/-- A thread with no parent channel id. -/
def thread1 : XLR.ThreadCreate := { id := 5, parent_id := none }

/-- A thread whose parent is the non-forum channel 3. -/
def thread2 : XLR.ThreadCreate := { id := 9, parent_id := some 3 }

/-- C1: for every thread-create event whose classification lookup reports a forum
parent, the handler makes exactly one reaction-add call, with the thread id as the
channel id, the thread id (cast) as the message id, and the fixed unicode reaction
upArrow; if that call fails the handler returns a RemoteApi-kind error (DiscordApi),
otherwise it returns success. -/
theorem c1_forum_thread_adds_exactly_one_reaction
    (state : InnerAppState) (thread : XLR.ThreadCreate) (parent : Nat)
    (hp : thread.parent_id = some parent)
    (hforum : (is_forum_post state parent).1 = Except.ok true) :
    (on_thread_create state thread).2.1.filter ApiCall.isReaction =
      [ApiCall.create_reaction thread.id thread.id upArrow] ∧
    (∀ u, state.client.create_reaction thread.id thread.id upArrow = Except.ok u →
      (on_thread_create state thread).1 = Except.ok ()) ∧
    (∀ e, state.client.create_reaction thread.id thread.id upArrow = Except.error e →
      (on_thread_create state thread).1 = Except.error (Error.DiscordApi e) ∧
      (Error.DiscordApi e).isRemoteApi = true) := by
  have hnr := is_forum_post_no_reaction state parent
  have hst := is_forum_post_state state parent
  rcases hfp : is_forum_post state parent with ⟨res, calls, s2⟩
  rw [hfp] at hforum hnr hst
  have hres : res = Except.ok true := hforum
  have hcalls : calls.filter ApiCall.isReaction = [] := hnr
  have hs2 : s2 = state := hst
  subst hres
  rw [hs2] at hfp
  rcases hcr : state.client.create_reaction thread.id thread.id upArrow with e | u
  · refine ⟨?_, ?_, ?_⟩
    · simp [on_thread_create, hp, hfp, hcr, List.filter_append, hcalls, ApiCall.isReaction]
    · intro u hu
      exact Except.noConfusion hu
    · intro e2 he2
      injection he2 with h
      subst h
      exact ⟨by simp [on_thread_create, hp, hfp, hcr], rfl⟩
  · refine ⟨?_, ?_, ?_⟩
    · simp [on_thread_create, hp, hfp, hcr, List.filter_append, hcalls, ApiCall.isReaction]
    · intro u2 hu
      simp [on_thread_create, hp, hfp, hcr]
    · intro e he
      exact Except.noConfusion he

/-- Witness for C1: thread 5 under forum channel 7 on the startup state. -/
theorem c1_witness :
    thread0.parent_id = some 7 ∧
    (is_forum_post state0 7).1 = Except.ok true ∧
    ((on_thread_create state0 thread0).2.1.filter ApiCall.isReaction =
      [ApiCall.create_reaction 5 5 upArrow] ∧
     (on_thread_create state0 thread0).1 = Except.ok ()) :=
  ⟨rfl, rfl,
    (c1_forum_thread_adds_exactly_one_reaction state0 thread0 7 rfl rfl).1,
    (c1_forum_thread_adds_exactly_one_reaction state0 thread0 7 rfl rfl).2.1 () rfl⟩

/-- C2: for every thread-create event with no parent channel id, the handler
returns the MissingParent error (NoThreadParentId), performs zero API calls, and
leaves the state untouched. -/
theorem c2_missing_parent_zero_calls
    (state : InnerAppState) (thread : XLR.ThreadCreate)
    (hp : thread.parent_id = none) :
    on_thread_create state thread = (Except.error Error.NoThreadParentId, [], state) ∧
    Error.NoThreadParentId.isMissingParent = true := by
  constructor
  · simp [on_thread_create, hp]
  · rfl

/-- Witness for C2: a parentless thread on the startup state. -/
theorem c2_witness :
    thread1.parent_id = none ∧
    on_thread_create state0 thread1 = (Except.error Error.NoThreadParentId, [], state0) :=
  ⟨rfl, (c2_missing_parent_zero_calls state0 thread1 rfl).1⟩

/-- C3: on a cache miss the lookup performs exactly the channel-metadata fetch,
returns whether the fetched type is forum, and does not insert the learned value:
the state is unchanged and a repeated lookup on the resulting state performs the
fetch again. -/
theorem c3_cache_miss_fetches_without_insert
    (state : InnerAppState) (parent : Nat)
    (hmiss : state.forums.lookup parent = none) :
    (is_forum_post state parent).2.1 = [ApiCall.channel parent] ∧
    (is_forum_post state parent).2.2 = state ∧
    (∀ kind, state.client.channel parent = Except.ok (Except.ok kind) →
      (is_forum_post state parent).1 = Except.ok (decide (kind = ChannelType.GuildForum))) ∧
    (is_forum_post (is_forum_post state parent).2.2 parent).2.1 =
      [ApiCall.channel parent] := by
  have hcalls := is_forum_post_miss_calls state parent hmiss
  refine ⟨hcalls, is_forum_post_state state parent, ?_, ?_⟩
  · intro kind hchan
    unfold is_forum_post
    rw [hmiss, hchan]
    cases kind <;> rfl
  · rw [is_forum_post_state state parent]
    exact hcalls

/-- Witness for C3: channel 3 is not in the startup cache. -/
theorem c3_witness :
    state0.forums.lookup 3 = none ∧
    ((is_forum_post state0 3).2.1 = [ApiCall.channel 3] ∧
     (is_forum_post state0 3).2.2 = state0 ∧
     (is_forum_post (is_forum_post state0 3).2.2 3).2.1 = [ApiCall.channel 3]) :=
  ⟨rfl,
    (c3_cache_miss_fetches_without_insert state0 3 rfl).1,
    (c3_cache_miss_fetches_without_insert state0 3 rfl).2.1,
    (c3_cache_miss_fetches_without_insert state0 3 rfl).2.2.2⟩

/-- C4: on a cache hit the lookup returns the cached boolean, performs zero API
calls, and leaves the state untouched. -/
theorem c4_cache_hit_returns_cached_no_io
    (state : InnerAppState) (parent : Nat) (b : Bool)
    (hhit : state.forums.lookup parent = some b) :
    is_forum_post state parent = (Except.ok b, [], state) := by
  unfold is_forum_post
  rw [hhit]

/-- Witness for C4: channel 7 cached as forum yields true with no calls. -/
theorem c4_witness :
    state1.forums.lookup 7 = some true ∧
    is_forum_post state1 7 = (Except.ok true, [], state1) :=
  ⟨rfl, c4_cache_hit_returns_cached_no_io state1 7 true rfl⟩

/-- C5: when the parent's classification succeeds and reports non-forum, the
handler returns success, its API calls are exactly those of the lookup, and none
of them is a reaction-add. -/
theorem c5_non_forum_success_no_reaction
    (state : InnerAppState) (thread : XLR.ThreadCreate) (parent : Nat)
    (hp : thread.parent_id = some parent)
    (hnf : (is_forum_post state parent).1 = Except.ok false) :
    (on_thread_create state thread).1 = Except.ok () ∧
    (on_thread_create state thread).2.1 = (is_forum_post state parent).2.1 ∧
    (on_thread_create state thread).2.1.filter ApiCall.isReaction = [] := by
  have hnr := is_forum_post_no_reaction state parent
  rcases hfp : is_forum_post state parent with ⟨res, calls, s2⟩
  rw [hfp] at hnf hnr
  have hres : res = Except.ok false := hnf
  subst hres
  refine ⟨?_, ?_, ?_⟩
  · simp [on_thread_create, hp, hfp]
  · simp [on_thread_create, hp, hfp]
  · simp only [on_thread_create, hp, hfp]
    exact hnr

/-- Witness for C5: thread 9 under the text channel 3. -/
theorem c5_witness :
    thread2.parent_id = some 3 ∧
    (is_forum_post state0 3).1 = Except.ok false ∧
    ((on_thread_create state0 thread2).1 = Except.ok () ∧
     (on_thread_create state0 thread2).2.1.filter ApiCall.isReaction = []) :=
  ⟨rfl, rfl,
    (c5_non_forum_success_no_reaction state0 thread2 3 rfl rfl).1,
    (c5_non_forum_success_no_reaction state0 thread2 3 rfl rfl).2.2⟩

/-- event_loop stops for the same reason as its loop body. -/
theorem event_loop_exit (s : InnerAppState) (close_ok : Bool) (inputs : List LoopInput) :
    (event_loop s close_ok inputs).exit = (event_loop_go s inputs).exit := by
  rcases hgo : event_loop_go s inputs with ⟨acts, st, ex, rem⟩
  simp only [event_loop, hgo]
  cases ex <;> rfl

/-- event_loop leaves unconsumed exactly what its loop body leaves unconsumed. -/
theorem event_loop_remaining (s : InnerAppState) (close_ok : Bool)
    (inputs : List LoopInput) :
    (event_loop s close_ok inputs).remaining = (event_loop_go s inputs).remaining := by
  rcases hgo : event_loop_go s inputs with ⟨acts, st, ex, rem⟩
  simp only [event_loop, hgo]
  cases ex <;> rfl

/-- event_loop emits the loop body's actions, followed by the close handshake
exactly when the loop has broken out. -/
theorem event_loop_actions (s : InnerAppState) (close_ok : Bool)
    (inputs : List LoopInput) :
    (event_loop s close_ok inputs).actions =
      (event_loop_go s inputs).actions ++
        (if (event_loop_go s inputs).exit = ExitReason.starved then []
         else [LoopAction.close]) := by
  rcases hgo : event_loop_go s inputs with ⟨acts, st, ex, rem⟩
  simp only [event_loop, hgo]
  cases ex <;> simp

/-- C6: per-event failures never terminate the event loop. The loop consumes its
whole input exactly when no cancellation and no fatal transport error occurs; when
it is starved nothing was left unconsumed; a thread-create event is fully handled
and the loop continues regardless of the handler's outcome, any handler error
being logged; a non-fatal transport error is logged and the loop continues. -/
theorem c6_loop_survives_per_event_failures :
    (∀ (state : InnerAppState) (close_ok : Bool) (inputs : List LoopInput),
      (event_loop state close_ok inputs).exit = ExitReason.starved ↔
        ∀ i ∈ inputs, LoopInput.stops i = false) ∧
    (∀ (state : InnerAppState) (close_ok : Bool) (inputs : List LoopInput),
      (event_loop state close_ok inputs).exit = ExitReason.starved →
        (event_loop state close_ok inputs).remaining = []) ∧
    (∀ (state : InnerAppState) (close_ok : Bool) (thread : XLR.ThreadCreate)
        (rest : List LoopInput),
      ((event_loop state close_ok
          (LoopInput.event (Event.ThreadCreate thread) :: rest)).exit =
        (event_loop (on_thread_create state thread).2.2 close_ok rest).exit) ∧
      ((event_loop state close_ok
          (LoopInput.event (Event.ThreadCreate thread) :: rest)).remaining =
        (event_loop (on_thread_create state thread).2.2 close_ok rest).remaining) ∧
      (∀ e, (on_thread_create state thread).1 = Except.error e →
        LoopAction.logHandlerError e ∈
          (event_loop state close_ok
            (LoopInput.event (Event.ThreadCreate thread) :: rest)).actions)) ∧
    (∀ (state : InnerAppState) (close_ok : Bool) (rest : List LoopInput),
      ((event_loop state close_ok (LoopInput.gatewayErr false :: rest)).actions =
        LoopAction.logSourceError false :: (event_loop state close_ok rest).actions) ∧
      ((event_loop state close_ok (LoopInput.gatewayErr false :: rest)).exit =
        (event_loop state close_ok rest).exit) ∧
      ((event_loop state close_ok (LoopInput.gatewayErr false :: rest)).remaining =
        (event_loop state close_ok rest).remaining)) := by
  refine ⟨?_, ?_, ?_, ?_⟩
  · intro s cf inputs
    rw [event_loop_exit]
    exact event_loop_go_starved_iff s inputs
  · intro s cf inputs h
    rw [event_loop_exit] at h
    rw [event_loop_remaining]
    exact event_loop_go_starved_remaining s inputs h
  · intro s cf t rest
    rcases hoc : on_thread_create s t with ⟨res, calls, s2⟩
    refine ⟨?_, ?_, ?_⟩
    · rw [event_loop_exit, event_loop_exit]
      simp [event_loop_go, hoc]
    · rw [event_loop_remaining, event_loop_remaining]
      simp [event_loop_go, hoc]
    · intro e he
      have hres : res = Except.error e := he
      subst hres
      rw [event_loop_actions]
      simp [event_loop_go, hoc, wrap_result]
  · intro s cf rest
    refine ⟨?_, ?_, ?_⟩
    · rw [event_loop_actions, event_loop_actions]
      simp [event_loop_go]
    · rw [event_loop_exit, event_loop_exit]
      simp [event_loop_go]
    · rw [event_loop_remaining, event_loop_remaining]
      simp [event_loop_go]

/-- Witness for C6: a non-fatal transport error alone starves the loop with
nothing unconsumed, and a parentless thread's handler error shows up as a log
action while the loop ran on. -/
theorem c6_witness :
    ((event_loop state0 true [LoopInput.gatewayErr false]).remaining = []) ∧
    (LoopAction.logHandlerError Error.NoThreadParentId ∈
      (event_loop state0 true [LoopInput.event (Event.ThreadCreate thread1)]).actions) :=
  ⟨c6_loop_survives_per_event_failures.2.1 state0 true [LoopInput.gatewayErr false]
      (by rfl),
   (c6_loop_survives_per_event_failures.2.2.1 state0 true thread1 []).2.2
      Error.NoThreadParentId (by rfl)⟩

/-- C7 counterexample: with the close handshake failing (close_ok false) after a
cancellation, the loop issues the close but emits no log entry whatsoever — the
close failure is silently discarded (main.rs line 75 binds the result to _), so
the claim that a failure of the close is logged is false at this input. -/
theorem c7_counterexample_close_failure_unlogged :
    (event_loop state0 false [LoopInput.cancelled]).actions = [LoopAction.close] ∧
    (event_loop state0 false [LoopInput.cancelled]).actions.filter LoopAction.isLog =
      [] :=
  ⟨rfl, rfl⟩

/-- C7 as amended: on every exit of the event loop — cancellation or fatal
transport error — exactly one close handshake is issued (none while the loop is
merely starved of input); immediately after the cancellation notification the
loop stops with no further input consumed or dispatched and the state untouched;
the outcome of the close changes nothing (it is discarded, not escalated); and no
close-failure log entry is ever emitted. -/
theorem c7_close_once_silently_discarded :
    (∀ (state : InnerAppState) (close_ok : Bool) (inputs : List LoopInput),
      (event_loop state close_ok inputs).actions.count LoopAction.close =
        if (event_loop state close_ok inputs).exit = ExitReason.starved then 0 else 1) ∧
    (∀ (state : InnerAppState) (close_ok : Bool) (rest : List LoopInput),
      (event_loop state close_ok (LoopInput.cancelled :: rest)).actions =
        [LoopAction.close] ∧
      (event_loop state close_ok (LoopInput.cancelled :: rest)).remaining = rest ∧
      (event_loop state close_ok (LoopInput.cancelled :: rest)).state = state) ∧
    (∀ (state : InnerAppState) (inputs : List LoopInput),
      event_loop state false inputs = event_loop state true inputs) ∧
    (∀ (state : InnerAppState) (close_ok : Bool) (inputs : List LoopInput),
      LoopAction.logCloseError ∉ (event_loop state close_ok inputs).actions) := by
  refine ⟨?_, ?_, ?_, ?_⟩
  · intro s cf inputs
    rw [event_loop_actions, event_loop_exit]
    have hno := (event_loop_go_no_close s inputs).1
    by_cases h : (event_loop_go s inputs).exit = ExitReason.starved
    · simp [h, List.count_eq_zero.mpr hno]
    · simp [h, List.count_append, List.count_eq_zero.mpr hno]
  · intro s cf rest
    exact ⟨rfl, rfl, rfl⟩
  · intro s inputs
    rfl
  · intro s cf inputs
    rw [event_loop_actions]
    have hno := (event_loop_go_no_close s inputs).2
    by_cases h : (event_loop_go s inputs).exit = ExitReason.starved <;>
      simp [h, hno]

/-- Witness for C7: at a concrete run the amended theorem's no-close-log clause
holds. -/
theorem c7_witness :
    LoopAction.logCloseError ∉ (event_loop state0 true [LoopInput.cancelled]).actions :=
  c7_close_once_silently_discarded.2.2.2 state0 true [LoopInput.cancelled]

/-- C8: the shutdown coordinator, on whichever of the two termination signals
arrives first, performs exactly one send on the one-shot channel; if the receiver
is alive the notification is delivered, otherwise the expect on the send result
ends the process (spec-modelled: panic treated as process-fatal). -/
theorem c8_coordinator_sends_once_or_terminates (sig : Signal) :
    (shutdown_coordinator sig true).1 = 1 ∧
    (shutdown_coordinator sig true).2 = CoordinatorOutcome.notified ∧
    (shutdown_coordinator sig false).1 = 1 ∧
    (shutdown_coordinator sig false).2 = CoordinatorOutcome.processTerminated := by
  cases sig <;> exact ⟨rfl, rfl, rfl, rfl⟩

/-- C9: nothing in the program inserts into the classification cache: the lookup,
the handler and the event loop all leave the application state untouched, a loop
run from the startup state ends with the cache still empty, and on the startup
state every lookup takes the miss path and performs the remote metadata fetch. -/
theorem c9_cache_never_inserted :
    (∀ (state : InnerAppState) (parent : Nat),
      (is_forum_post state parent).2.2 = state) ∧
    (∀ (state : InnerAppState) (thread : XLR.ThreadCreate),
      (on_thread_create state thread).2.2 = state) ∧
    (∀ (state : InnerAppState) (close_ok : Bool) (inputs : List LoopInput),
      (event_loop state close_ok inputs).state = state) ∧
    (∀ (client : DiscordClient) (close_ok : Bool) (inputs : List LoopInput),
      (event_loop (initial_state client) close_ok inputs).state.forums = []) ∧
    (∀ (client : DiscordClient) (parent : Nat),
      (is_forum_post (initial_state client) parent).2.1 = [ApiCall.channel parent]) := by
  refine ⟨is_forum_post_state, on_thread_create_state, event_loop_state, ?_, ?_⟩
  · intro client cf inputs
    rw [event_loop_state]
    rfl
  · intro client parent
    exact is_forum_post_miss_calls (initial_state client) parent rfl

/-- C10: an event that is not a thread-create is a pure filter step: the loop
invokes no handler, performs no API call, changes no state — the run is
identical to the run without that event. -/
theorem c10_non_thread_event_is_pure_filter
    (state : InnerAppState) (close_ok : Bool) (tag : Nat) (rest : List LoopInput) :
    event_loop state close_ok (LoopInput.event (Event.Other tag) :: rest) =
      event_loop state close_ok rest :=
  rfl

end XLR
